import Mathlib

/-!
Shallow embedding of the video controller of `mern-youtube-clone`
(`src/controllers/video.controller.js`) together with the cache utility
contract it consumes (modelled from the specification, since
`utils/redis.util.js` is not part of the provided sources).

Strings are modelled with Lean `String`; machine integers do not occur
(page/limit are small naturals).  Each HTTP handler is embedded as a pure
function from an application state and its request inputs to a result
(`Except ApiError ApiResponse`), the successor state, and a trace of the
externally visible cache/record-store events it performs, in program order.
-/

/-- ASCII lower-casing of a character, mirroring JavaScript
`String.prototype.toLowerCase` on the ASCII range used by the code. -/
def lowerChar (c : Char) : Char :=
  if 65 ≤ c.toNat ∧ c.toNat ≤ 90 then Char.ofNat (c.toNat + 32) else c

/-- Lower-case every character of a string. -/
def lowerStr (s : String) : String :=
  ⟨s.data.map lowerChar⟩

/-- `startsWithChars s p` holds when `p` is an initial segment of `s`. -/
def startsWithChars : List Char → List Char → Bool
  | _, [] => true
  | [], _ :: _ => false
  | c :: cs, d :: ds => c == d && startsWithChars cs ds

/-- `containsChars s p`: `p` occurs contiguously inside `s`. -/
def containsChars : List Char → List Char → Bool
  | [], pat => pat.isEmpty
  | c :: cs, pat => startsWithChars (c :: cs) pat || containsChars cs pat

/-- Case-insensitive containment test: the model of a MongoDB
`$regex: pat, $options: "i"` match for the literal patterns the controller
builds from the free-text query. -/
def icontains (s pat : String) : Bool :=
  containsChars (lowerStr s).data (lowerStr pat).data

/-- String prefix test (used by the tag-group invalidation model). -/
def strStartsWith (s p : String) : Bool :=
  startsWithChars s.data p.data

/-- Split on single spaces, mirroring JavaScript `q.split(" ")`
(consecutive separators produce empty tokens; the empty string yields
one empty token). -/
def splitOnSpaceAux : List Char → List Char → List String
  | [], acc => [⟨acc.reverse⟩]
  | c :: cs, acc =>
      if c == ' ' then ⟨acc.reverse⟩ :: splitOnSpaceAux cs []
      else splitOnSpaceAux cs (c :: acc)

/-- `splitOnSpace s` is `s.split(" ")` of JavaScript. -/
def splitOnSpace (s : String) : List String :=
  splitOnSpaceAux s.data []

/-- An account entity as stored in the record store (`users` collection).
`password` stands for the fields the projections drop. -/
structure User where
  id : String
  username : String
  fullName : String
  email : String
  avatar : String
  coverImage : String
  password : String
deriving DecidableEq, Repr

/-- The owner projection used by `populate` in `getVideoById` and
`getRelatedVideos` (`select: "_id username fullName email avatar"`). -/
structure OwnerStub where
  id : String
  username : String
  fullName : String
  email : String
  avatar : String
deriving DecidableEq, Repr

/-- The owner projection of the `$lookup` pipeline in `getAllVideos`
(also projects `coverImage`). -/
structure OwnerStubFull where
  id : String
  username : String
  fullName : String
  email : String
  avatar : String
  coverImage : String
deriving DecidableEq, Repr

/-- An asset reference: opaque URL plus storage identifier. -/
structure AssetRef where
  url : String
  publicId : String
deriving DecidableEq, Repr

/-- A video record of the record store. -/
structure Video where
  id : String
  title : String
  description : String
  tags : List String
  videoFile : AssetRef
  thumbnail : AssetRef
  duration : Nat
  owner : String
  isPublished : Bool
  createdAt : Nat
deriving DecidableEq, Repr

/-- Modelled from the spec: the object-storage collaborator
(`uploadOnCloudinary`, absent from the provided sources) accepts a local
file path and returns `{url, public_id, duration?}`; called with an absent
path it yields no identifier, and that failure is surfaced upstream. -/
structure UploadResult where
  secureUrl : String
  publicId : String
  duration : Nat
deriving DecidableEq, Repr

/-- Modelled from the spec: upload of an absent path produces no result;
a present path produces a result carrying a storage identifier. -/
def uploadOnCloudinary : Option String → Option UploadResult
  | none => none
  | some p => some ⟨"https://cdn.example/" ++ p, p, 0⟩

/-- Mongoose `isValidObjectId`: a well-formed record identifier
(24 hexadecimal characters). -/
def isValidObjectId (s : String) : Bool :=
  s.length == 24 && s.data.all (fun c => c.isDigit || (97 ≤ c.toNat && c.toNat ≤ 102) || (65 ≤ c.toNat && c.toNat ≤ 70))

/-! ## Cache key construction (modelled from the spec, §4.1)

`utils/redis.util.js` is not among the provided sources; its contract is
taken from the specification: serialize parameters by sorting names
lexicographically, concatenate `name=value` pairs with a stable delimiter,
namespace with the kind (`kind:sortedParams`); absent/default parameters
are omitted rather than serialized as empty; single-entity lookups use the
simpler shape `kind:id`. -/

/-- Modelled from the spec: default value of each listing query parameter
(`page = 1`, `limit = 10`, `sortBy = "createdAt"`, `sortType = "desc"`). -/
def paramDefault : String → Option String
  | "page" => some "1"
  | "limit" => some "10"
  | "sortBy" => some "createdAt"
  | "sortType" => some "desc"
  | _ => none

/-- Modelled from the spec: a parameter is serialized into the key unless
it is absent (empty value) or equal to its default. -/
def includeParam (p : String × String) : Bool :=
  p.2 != "" && paramDefault p.1 != some p.2

/-- Lexicographic comparison of character lists (executable; used to sort
serialized parameters canonically). -/
def leChars : List Char → List Char → Bool
  | [], _ => true
  | _ :: _, [] => false
  | a :: as, b :: bs => if a = b then leChars as bs else decide (a < b)

/-- Lexicographic comparison of strings. -/
def strLe (a b : String) : Bool :=
  leChars a.data b.data

instance : DecidableRel (fun a b : String => strLe a b = true) :=
  fun _ _ => instDecidableEqBool _ _

theorem leChars_total (x y : List Char) : leChars x y = true ∨ leChars y x = true := by
  induction x generalizing y with
  | nil => left; rfl
  | cons a as ih =>
    cases y with
    | nil => right; rfl
    | cons b bs =>
      by_cases hab : a = b
      · subst hab
        rcases ih bs with h | h <;> [left; right] <;> simpa [leChars] using h
      · rcases lt_or_gt_of_ne hab with h | h
        · left; simp [leChars, hab, h]
        · right; simp [leChars, (Ne.symm hab), h]

theorem leChars_trans {x y z : List Char} (h₁ : leChars x y = true)
    (h₂ : leChars y z = true) : leChars x z = true := by
  induction x generalizing y z with
  | nil => rfl
  | cons a as ih =>
    cases y with
    | nil => simp [leChars] at h₁
    | cons b bs =>
      cases z with
      | nil => simp [leChars] at h₂
      | cons c cs =>
        by_cases hab : a = b <;> by_cases hbc : b = c
        · subst hab; subst hbc
          simp only [leChars, if_pos rfl] at h₁ h₂ ⊢
          exact ih h₁ h₂
        · subst hab
          simp only [leChars, if_pos rfl, if_neg hbc, decide_eq_true_eq] at h₂ ⊢
          exact h₂
        · subst hbc
          simp only [leChars, if_pos rfl, if_neg hab, decide_eq_true_eq] at h₁ ⊢
          exact h₁
        · simp only [leChars, if_neg hab, if_neg hbc, decide_eq_true_eq] at h₁ h₂
          have hac : a < c := lt_trans h₁ h₂
          simp [leChars, ne_of_lt hac, hac]

theorem leChars_antisymm {x y : List Char} (h₁ : leChars x y = true)
    (h₂ : leChars y x = true) : x = y := by
  induction x generalizing y with
  | nil =>
    cases y with
    | nil => rfl
    | cons b bs => simp [leChars] at h₂
  | cons a as ih =>
    cases y with
    | nil => simp [leChars] at h₁
    | cons b bs =>
      by_cases hab : a = b
      · subst hab
        simp only [leChars, if_pos rfl] at h₁ h₂
        exact congrArg _ (ih h₁ h₂)
      · simp only [leChars, if_neg hab, if_neg (Ne.symm hab), decide_eq_true_eq] at h₁ h₂
        exact absurd h₂ (lt_asymm h₁)

instance : IsTotal String (fun a b => strLe a b = true) :=
  ⟨fun a b => leChars_total a.data b.data⟩

instance : IsTrans String (fun a b => strLe a b = true) :=
  ⟨fun _ _ _ h₁ h₂ => leChars_trans h₁ h₂⟩

instance : IsAntisymm String (fun a b => strLe a b = true) :=
  ⟨fun a b h₁ h₂ => by
    cases a with
    | mk da => cases b with
      | mk db => exact congrArg String.mk (leChars_antisymm h₁ h₂)⟩

/-- Modelled from the spec: `generateCacheKey(kind, params)` for a
parameter mapping — lexicographically sorted `name=value` pairs joined
with `&`, prefixed by the kind. -/
def generateCacheKey (kind : String) (params : List (String × String)) : String :=
  kind ++ ":" ++
    String.intercalate "&"
      (List.insertionSort (fun a b : String => strLe a b = true)
        ((params.filter includeParam).map (fun p => p.1 ++ "=" ++ p.2)))

/-- Modelled from the spec: `generateCacheKey(kind, id)` for a
single-entity lookup — the simple shape `kind:id`. -/
def entityKey (kind id : String) : String :=
  kind ++ ":" ++ id

/-! ## The uniform response envelope and error type -/

/-- `ApiError(statusCode, message)` of the source's error utility. -/
structure ApiError where
  statusCode : Nat
  message : String
deriving DecidableEq, Repr

/-- A listed video after the `$lookup`/`$set` stages: the record with its
owner reference resolved to a projected stub (`none` when no user
matches). -/
structure ListedVideo where
  video : Video
  owner : Option OwnerStubFull
deriving DecidableEq, Repr

/-- The pagination summary produced by `aggregatePaginate` and copied into
the listing response. -/
structure ListingData where
  videos : List ListedVideo
  totalVideos : Nat
  totalPages : Nat
  currentPage : Nat
  hasNextPage : Bool
  hasPrevPage : Bool
deriving DecidableEq, Repr

/-- The `data` field of a response envelope, per endpoint shape. -/
inductive Payload
  | listing (d : ListingData)
  | videoWithOwner (v : Video) (owner : Option OwnerStub)
  | videoPlain (v : Video)
  | videoList (vs : List (Video × Option OwnerStub))
  | emptyObj
  | text (s : String)
deriving DecidableEq, Repr

/-- Modelled from the spec: the uniform envelope `{status, data, message}`
(`utils/ApiResponse.js` is not among the provided sources). -/
structure ApiResponse where
  statusCode : Nat
  data : Payload
  message : String
deriving DecidableEq, Repr

/-! ## Application state and event traces -/

/-- The state visible to the handlers: the record store (videos and
users) and the key-value cache. -/
structure AppState where
  store : List Video
  users : List User
  cache : List (String × ApiResponse)
deriving DecidableEq, Repr

/-- Externally visible operations a handler performs, in program order. -/
inductive Event
  | cacheCheck (key : String)
  | cacheSet (key : String)
  | cacheInvalidate (key : String)
  | cacheInvalidateGroup (tag : String)
  | dbQuery
  | dbWrite
deriving DecidableEq, Repr

instance {ε α : Type} [DecidableEq ε] [DecidableEq α] : DecidableEq (Except ε α) :=
  fun x y =>
    match x, y with
    | .ok a, .ok b =>
        if h : a = b then isTrue (by rw [h])
        else isFalse (fun hh => h (Except.ok.inj hh))
    | .ok _, .error _ => isFalse (fun hh => Except.noConfusion hh)
    | .error _, .ok _ => isFalse (fun hh => Except.noConfusion hh)
    | .error a, .error b =>
        if h : a = b then isTrue (by rw [h])
        else isFalse (fun hh => h (Except.error.inj hh))

/-- Result of running a handler: the HTTP outcome, the successor state,
and the trace of events performed. -/
structure HOut where
  res : Except ApiError ApiResponse
  st : AppState
  tr : List Event
deriving Repr

/-- Modelled from the spec: `checkCache` — look the key up in the cache
store. -/
def cacheLookup (st : AppState) (key : String) : Option ApiResponse :=
  (st.cache.find? (fun e => e.1 == key)).map (·.2)

/-- Modelled from the spec: `setCache` — store the response under the key
(freshest entry first). -/
def cacheSet (st : AppState) (key : String) (r : ApiResponse) : AppState :=
  { st with cache := (key, r) :: st.cache.filter (fun e => e.1 != key) }

/-- Modelled from the spec: `revalidateCache` — delete the single key. -/
def cacheDelete (st : AppState) (key : String) : AppState :=
  { st with cache := st.cache.filter (fun e => e.1 != key) }

/-- Modelled from the spec: `revalidateRelatedCaches` — delete every key
of the tag's invalidation group; the group is keyed by the kind-as-prefix
convention (`tag:...`). -/
def cacheDeleteGroup (st : AppState) (tag : String) : AppState :=
  { st with cache := st.cache.filter (fun e => !(strStartsWith e.1 (tag ++ ":"))) }

/-! ## The listing search query (video.controller.js lines 31–53)

The controller builds a MongoDB match document; we mirror its structure
(`isPublished`, an optional `$or` block derived from the free-text query,
an optional `owner` equality) and give it the evaluation semantics of the
corresponding MongoDB operators. -/

/-- The `$or` block of lines 33–37: title/description `$regex … $options
"i"` plus `tags $in` the lower-cased space-split tokens of `q`. -/
structure OrClause where
  q : String
deriving DecidableEq, Repr

/-- Evaluation of the `$or` block against one record: case-insensitive
containment in title or description, or a tag contained in the token
list. -/
def evalOrClause (c : OrClause) (v : Video) : Bool :=
  icontains v.title c.q || icontains v.description c.q ||
    v.tags.any (fun t => ((splitOnSpace c.q).map lowerStr).contains t)

/-- The match document of lines 31–46. -/
structure SearchQuery where
  isPublished : Bool
  orq : Option OrClause
  owner : Option String
deriving DecidableEq, Repr

/-- MongoDB evaluation of the match document against one record. -/
def evalSearch (sq : SearchQuery) (v : Video) : Bool :=
  v.isPublished == sq.isPublished
  && (match sq.orq with | none => true | some c => evalOrClause c v)
  && (match sq.owner with | none => true | some o => v.owner == o)

/-- Lines 31–38: the query part of the match document (`isPublished:
true`; the `$or` block only when `q` is truthy). -/
def buildSearchQuery (q : Option String) : SearchQuery :=
  { isPublished := true
    orq := match q with
      | some s => if s ≠ "" then some ⟨s⟩ else none
      | none => none
    owner := none }

/-- The sort document of lines 47–53: one field with a direction. -/
structure SortSpec where
  field : String
  desc : Bool
deriving DecidableEq, Repr

/-- Lines 49–53: `sortQuery[sortBy] = sortType === "desc" ? -1 : 1`, with
`createdAt` descending when `sortBy` is falsy. -/
def buildSortSpec (sortBy sortType : String) : SortSpec :=
  if sortBy ≠ "" then ⟨sortBy, sortType == "desc"⟩ else ⟨"createdAt", true⟩

/-- A sortable field value (the record fields the sort can address;
unknown field names yield `none`, MongoDB's missing-field behaviour). -/
inductive SortVal
  | nat (n : Nat)
  | str (s : String)
deriving DecidableEq, Repr

/-- Field access for the sort stage. -/
def fieldOf (v : Video) : String → Option SortVal
  | "createdAt" => some (.nat v.createdAt)
  | "title" => some (.str v.title)
  | "description" => some (.str v.description)
  | "duration" => some (.nat v.duration)
  | _ => none

/-- Comparison of optional sort values (missing sorts first, numbers
before strings, mirroring the BSON comparison order restricted to the
types in play). -/
def sortValLe : Option SortVal → Option SortVal → Bool
  | none, _ => true
  | some _, none => false
  | some (.nat a), some (.nat b) => a ≤ b
  | some (.nat _), some (.str _) => true
  | some (.str _), some (.nat _) => false
  | some (.str a), some (.str b) => strLe a b

/-- The `$sort` stage's ordering on records. -/
def sortLe (sp : SortSpec) (a b : Video) : Bool :=
  if sp.desc then sortValLe (fieldOf b sp.field) (fieldOf a sp.field)
  else sortValLe (fieldOf a sp.field) (fieldOf b sp.field)

instance (sp : SortSpec) : DecidableRel (fun a b : Video => sortLe sp a b = true) :=
  fun _ _ => instDecidableEqBool _ _

/-- The `$lookup`/`$set` stages (lines 76–101): resolve the owner
reference to a projected stub. -/
def lookupOwnerFull (users : List User) (ownerId : String) : Option OwnerStubFull :=
  (users.find? (fun u => u.id == ownerId)).map
    (fun u => ⟨u.id, u.username, u.fullName, u.email, u.avatar, u.coverImage⟩)

/-- The `populate` projection (`select: "_id username fullName email
avatar"`) of `getVideoById` and `getRelatedVideos`. -/
def lookupOwner (users : List User) (ownerId : String) : Option OwnerStub :=
  (users.find? (fun u => u.id == ownerId)).map
    (fun u => ⟨u.id, u.username, u.fullName, u.email, u.avatar⟩)

/-! ## Pagination -/

/-- The raw page slice produced by `aggregatePaginate`. -/
structure PageResult (α : Type) where
  docs : List α
  totalDocs : Nat
  totalPages : Nat
  page : Nat
  hasNextPage : Bool
  hasPrevPage : Bool
deriving DecidableEq, Repr

/-- Modelled from the spec (§4.4 step 5; the `aggregatePaginate` plugin is
an external collaborator, not part of the provided sources): skip
`(page−1)×limit` of the matched-and-sorted records and take `limit`; the
total matched count is computed pre-pagination; `totalPages` is the
ceiling of `total/limit` (at least 1); `hasNextPage`/`hasPrevPage` compare
the current page against the page count. -/
def aggregatePaginate {α : Type} (l : List α) (page limit : Nat) : PageResult α :=
  let total := l.length
  let pages := max ((total + limit - 1) / limit) 1
  { docs := (l.drop ((page - 1) * limit)).take limit
    totalDocs := total
    totalPages := pages
    page := page
    hasNextPage := page < pages
    hasPrevPage := 1 < page }

/-- The full aggregation pipeline of `getAllVideos` before pagination:
match, sort, owner lookup. -/
def pipelineDocs (st : AppState) (sq : SearchQuery) (sp : SortSpec) : List ListedVideo :=
  (List.insertionSort (fun a b : Video => sortLe sp a b = true)
      (st.store.filter (fun v => evalSearch sq v))).map
    (fun v => ⟨v, lookupOwnerFull st.users v.owner⟩)

/-! ## Handlers (video.controller.js) -/

/-- `Video.findById` / the `_id` lookups: plain identifier lookup in the
record store. -/
def findById (st : AppState) (id : String) : Option Video :=
  st.store.find? (fun v => v.id == id)

/-- Query-string parameter access on `req.query`. -/
def qget (query : List (String × String)) (name : String) : Option String :=
  (query.find? (fun p => p.1 == name)).map (·.2)

/-- JavaScript `value?.trim() === ""`: defined and all-whitespace. -/
def trimStr (s : String) : String :=
  ⟨((s.data.dropWhile (fun c => c == ' ')).reverse.dropWhile (fun c => c == ' ')).reverse⟩

/-- `value?.trim() === ""` — `false` when the value is absent. -/
def optTrimEmpty : Option String → Bool
  | none => false
  | some s => trimStr s == ""

/-- `!result?.public_id` truthiness check on an upload result. -/
def hasPublicId : Option UploadResult → Bool
  | none => false
  | some t => t.publicId != ""

/-- Modelled from the spec: `formatDuration` (utility absent from the
provided sources) canonicalizes the duration reported by the object
storage; the claims do not depend on its output shape. -/
def formatDuration (n : Nat) : Nat := n

/-- `getAllVideos` (lines 17–127): validate the optional owner filter,
build the match/sort documents, consult the cache, and on a miss run the
aggregation pipeline with pagination and store the response. -/
def runGetAllVideos (st : AppState) (query : List (String × String)) : HOut :=
  let page := ((qget query "page").bind String.toNat?).getD 1
  let limit := ((qget query "limit").bind String.toNat?).getD 10
  let sortBy := (qget query "sortBy").getD "createdAt"
  let sortType := (qget query "sortType").getD "desc"
  let userId := (qget query "userId").getD ""
  let q := qget query "q"
  let sq0 := buildSearchQuery q
  if userId ≠ "" ∧ isValidObjectId userId = false then
    ⟨.error ⟨400, "Invalid User Id"⟩, st, []⟩
  else
    let sq := if userId ≠ "" then { sq0 with owner := some userId } else sq0
    let sp := buildSortSpec sortBy sortType
    let cacheKey := generateCacheKey "all-videos" query
    match cacheLookup st cacheKey with
    | some r => ⟨.ok r, st, [.cacheCheck cacheKey]⟩
    | none =>
      let result := aggregatePaginate (pipelineDocs st sq sp) page limit
      let response : ApiResponse :=
        ⟨200,
         .listing ⟨result.docs, result.totalDocs, result.totalPages, result.page,
                   result.hasNextPage, result.hasPrevPage⟩,
         "Videos found"⟩
      ⟨.ok response, cacheSet st cacheKey response,
       [.cacheCheck cacheKey, .dbQuery, .cacheSet cacheKey]⟩

/-- `getVideoById` (lines 130–149).  Note that the source awaits
`checkCache` but discards its result (line 135), so the record store is
queried unconditionally and the response is always rebuilt from it. -/
def runGetVideoById (st : AppState) (videoId : String) : HOut :=
  let cacheKey := entityKey "video" videoId
  match findById st videoId with
  | none => ⟨.error ⟨404, "Video not found"⟩, st, [.cacheCheck cacheKey, .dbQuery]⟩
  | some v =>
    let response : ApiResponse :=
      ⟨200, .videoWithOwner v (lookupOwner st.users v.owner), "Video found"⟩
    ⟨.ok response, cacheSet st cacheKey response,
     [.cacheCheck cacheKey, .dbQuery, .cacheSet cacheKey]⟩

/-- `updateVideoById` (lines 152–191): required-fields check, thumbnail
upload, `findByIdAndUpdate`, then single-key and group invalidation. -/
def runUpdateVideoById (st : AppState) (videoId : String)
    (title description filePath : Option String) : HOut :=
  if optTrimEmpty title && optTrimEmpty description && optTrimEmpty filePath then
    ⟨.error ⟨400, "Please provide All required fields"⟩, st, []⟩
  else
    let thumb := uploadOnCloudinary filePath
    if hasPublicId thumb = false then
      ⟨.error ⟨500, "Failed to update thumbnail"⟩, st, []⟩
    else
      match thumb, findById st videoId with
      | none, _ => ⟨.error ⟨500, "Failed to update thumbnail"⟩, st, []⟩
      | some _, none => ⟨.error ⟨500, "Failed to update video"⟩, st, [.dbWrite]⟩
      | some t, some v =>
        let v' := { v with
          title := title.getD v.title
          description := description.getD v.description
          thumbnail := ⟨t.secureUrl, t.publicId⟩ }
        let key := entityKey "video" videoId
        let st' := cacheDeleteGroup
          (cacheDelete { st with store := st.store.map (fun w => if w.id == videoId then v' else w) } key)
          "all-videos"
        ⟨.ok ⟨200, .videoPlain v', "Video updated"⟩, st',
         [.dbWrite, .cacheInvalidate key, .cacheInvalidateGroup "all-videos"]⟩

/-- `updateAllVideo` (lines 194–219): bulk `$set` over every record, then
group invalidation.  `modifiedCount` is modelled as the store size. -/
def runUpdateAllVideo (st : AppState)
    (title description : Option String) (tags : List String) : HOut :=
  if (optTrimEmpty title && optTrimEmpty description) || tags.isEmpty then
    ⟨.error ⟨400, "Please provide All required fields"⟩, st, []⟩
  else
    let st1 := { st with store := st.store.map (fun v =>
      { v with
        title := title.getD v.title
        description := description.getD v.description
        tags := tags }) }
    if st.store.length == 0 then
      ⟨.error ⟨500, "Failed to update videos"⟩, st1, [.dbWrite]⟩
    else
      ⟨.ok ⟨200, .text "All Videos Updated", "Success"⟩,
       cacheDeleteGroup st1 "all-videos",
       [.dbWrite, .cacheInvalidateGroup "all-videos"]⟩

/-- `publishVideo` (lines 222–268): file and field validation, uploads,
`Video.create`, then group invalidation.  The generated identifier and
creation time are inputs of the model; `isPublished` defaults to true per
the spec's data model (the schema is not among the provided sources). -/
def runPublishVideo (st : AppState) (title description : Option String)
    (tags : List String) (videoPath thumbPath : Option String)
    (ownerId newId : String) (now : Nat) : HOut :=
  if (videoPath.getD "") == "" || (thumbPath.getD "") == "" then
    ⟨.error ⟨400, "Thumbnail and Video Files are required"⟩, st, []⟩
  else if (optTrimEmpty title || optTrimEmpty description) || tags.isEmpty then
    ⟨.error ⟨400, "Please provide All required fields"⟩, st, []⟩
  else
    match uploadOnCloudinary videoPath, uploadOnCloudinary thumbPath with
    | none, _ => ⟨.error ⟨500, "Failed to upload video file"⟩, st, []⟩
    | some vf, none =>
        if vf.publicId == "" then ⟨.error ⟨500, "Failed to upload video file"⟩, st, []⟩
        else ⟨.error ⟨500, "Failed to upload thumbnail file"⟩, st, []⟩
    | some vf, some th =>
        if vf.publicId == "" then ⟨.error ⟨500, "Failed to upload video file"⟩, st, []⟩
        else if th.publicId == "" then ⟨.error ⟨500, "Failed to upload thumbnail file"⟩, st, []⟩
        else
          let newVideo : Video :=
            { id := newId
              title := title.getD ""
              description := description.getD ""
              tags := tags
              videoFile := ⟨vf.secureUrl, vf.publicId⟩
              thumbnail := ⟨th.secureUrl, th.publicId⟩
              duration := formatDuration vf.duration
              owner := ownerId
              isPublished := true
              createdAt := now }
          ⟨.ok ⟨201, .videoPlain newVideo, "Video published successfully"⟩,
           cacheDeleteGroup { st with store := st.store ++ [newVideo] } "all-videos",
           [.dbWrite, .cacheInvalidateGroup "all-videos"]⟩

/-- `deleteVideo` (lines 271–282): `findByIdAndDelete`, then single-key
and group invalidation. -/
def runDeleteVideo (st : AppState) (videoId : String) : HOut :=
  match findById st videoId with
  | none => ⟨.error ⟨500, "Failed to delete video"⟩, st, [.dbWrite]⟩
  | some _ =>
    let key := entityKey "video" videoId
    let st' := cacheDeleteGroup
      (cacheDelete { st with store := st.store.filter (fun v => v.id != videoId) } key)
      "all-videos"
    ⟨.ok ⟨200, .emptyObj, "Video deleted"⟩, st',
     [.dbWrite, .cacheInvalidate key, .cacheInvalidateGroup "all-videos"]⟩

/-- `updateVideoPublishStatus` (lines 285–310): `findByIdAndUpdate` of the
publication flag, then single-key and group invalidation. -/
def runUpdateVideoPublishStatus (st : AppState) (videoId : String)
    (isPub : Bool) : HOut :=
  match findById st videoId with
  | none => ⟨.error ⟨500, "Failed to update video publish status"⟩, st, [.dbWrite]⟩
  | some v =>
    let v' := { v with isPublished := isPub }
    let key := entityKey "video" videoId
    let st' := cacheDeleteGroup
      (cacheDelete { st with store := st.store.map (fun w => if w.id == videoId then v' else w) } key)
      "all-videos"
    ⟨.ok ⟨200, .videoPlain v', "Video publish status updated"⟩, st',
     [.dbWrite, .cacheInvalidate key, .cacheInvalidateGroup "all-videos"]⟩

/-- `getRelatedVideos` (lines 312–341): identifier validation, subject
lookup, then — in source order — `revalidateCache` on the key, a cache
check, and the `$ne`/`$in` find with owner population.  The `setCache`
call is commented out in the source, so the computed response is not
stored. -/
def runGetRelatedVideos (st : AppState) (videoId : String) : HOut :=
  if isValidObjectId videoId = false then
    ⟨.error ⟨400, "Invalid video Id"⟩, st, []⟩
  else
    match findById st videoId with
    | none => ⟨.error ⟨404, "Video not found"⟩, st, [.dbQuery]⟩
    | some subject =>
      let key := entityKey "related-videos" videoId
      let st1 := cacheDelete st key
      match cacheLookup st1 key with
      | some r => ⟨.ok r, st1, [.dbQuery, .cacheInvalidate key, .cacheCheck key]⟩
      | none =>
        let related := st1.store.filter
          (fun v => (v.id != videoId) && v.tags.any (fun t => subject.tags.contains t))
        let response : ApiResponse :=
          ⟨200, .videoList (related.map (fun v => (v, lookupOwner st1.users v.owner))),
           "Related videos found"⟩
        ⟨.ok response, st1, [.dbQuery, .cacheInvalidate key, .cacheCheck key, .dbQuery]⟩

/-! ## Trace predicates -/

/-- An event that deletes cache entries. -/
def isInvalEvent : Event → Bool
  | .cacheInvalidate _ => true
  | .cacheInvalidateGroup _ => true
  | _ => false

/-- A record-store write event. -/
def isWriteEvent : Event → Bool
  | .dbWrite => true
  | _ => false

/-- Auxiliary scan: every invalidation event must be preceded by a
persistence write (`seen` records whether a write has occurred). -/
def invalAfterWriteAux : Bool → List Event → Bool
  | _, [] => true
  | seen, e :: es => (!isInvalEvent e || seen) && invalAfterWriteAux (seen || isWriteEvent e) es

/-- Every cache-invalidation event of the trace occurs after a
record-store write. -/
def writeThenInval (tr : List Event) : Bool :=
  invalAfterWriteAux false tr

/-! ## Concrete fixtures used by witnesses and counterexamples -/

/-- A well-formed owner identifier. -/
def ownerA : String := "aaaaaaaaaaaaaaaaaaaaaaaa"

/-- The owner account behind `ownerA`. -/
def user1 : User :=
  { id := ownerA, username := "sam", fullName := "Sam", email := "sam@example.com"
    avatar := "av", coverImage := "cv", password := "pw" }

/-- A published record with a `cats` tag. -/
def vid1 : Video :=
  { id := "bbbbbbbbbbbbbbbbbbbbbbbb", title := "Cats playing", description := "fun"
    tags := ["cats"], videoFile := ⟨"u1", "p1"⟩, thumbnail := ⟨"t1", "q1"⟩
    duration := 10, owner := ownerA, isPublished := true, createdAt := 5 }

/-- A published record with a `dogs` tag. -/
def vid2 : Video :=
  { id := "cccccccccccccccccccccccc", title := "Dogs", description := "barking"
    tags := ["dogs"], videoFile := ⟨"u2", "p2"⟩, thumbnail := ⟨"t2", "q2"⟩
    duration := 20, owner := ownerA, isPublished := true, createdAt := 3 }

/-- An unpublished record sharing the `cats` tag. -/
def vid3 : Video :=
  { id := "dddddddddddddddddddddddd", title := "Secret cats", description := "draft"
    tags := ["cats"], videoFile := ⟨"u3", "p3"⟩, thumbnail := ⟨"t3", "q3"⟩
    duration := 30, owner := ownerA, isPublished := false, createdAt := 7 }

/-- A three-record state with an empty cache. -/
def st0 : AppState := ⟨[vid1, vid2, vid3], [user1], []⟩

/-- A response cached under the single-video key of `vid1` that differs
from what the record store would produce for it. -/
def staleVideoResp : ApiResponse := ⟨200, .videoWithOwner vid2 none, "Video found"⟩

/-- `st0` with a cache entry for `vid1`'s single-video key. -/
def stVideoCached : AppState :=
  { st0 with cache := [(entityKey "video" vid1.id, staleVideoResp)] }

/-- A response cached under the related-videos key of `vid1`. -/
def preRelatedResp : ApiResponse := ⟨200, .videoList [], "Related videos found"⟩

/-- `st0` with a cache entry for `vid1`'s related-videos key. -/
def stRelatedCached : AppState :=
  { st0 with cache := [(entityKey "related-videos" vid1.id, preRelatedResp)] }

/-! ## Helper lemmas -/

theorem includeParam_page_one : includeParam ("page", "1") = false := by decide

theorem hasNext_lt_iff {t page limit : Nat} (hp : 1 ≤ page) (hl : 1 ≤ limit) :
    page < max ((t + limit - 1) / limit) 1 ↔ page * limit < t := by
  have h0 : 0 < limit := hl
  have hnot : ¬ page < 1 := not_lt.2 hp
  rw [lt_max_iff]
  simp only [hnot, or_false]
  rw [← Nat.ceilDiv_eq_add_pred_div, ← not_le, ceilDiv_le_iff_le_mul h0, not_le,
    Nat.mul_comm]

theorem flatten_chunks {α : Type} (limit : Nat) (l : List α) :
    ∀ k : Nat,
      ((List.range k).map (fun i => (l.drop (i * limit)).take limit)).flatten
        = l.take (k * limit)
  | 0 => by simp
  | k + 1 => by
    rw [List.range_succ, List.map_append, List.flatten_append]
    simp only [List.map_cons, List.map_nil, List.flatten_cons, List.flatten_nil,
      List.append_nil]
    rw [flatten_chunks limit l k, Nat.succ_mul, List.take_add]

theorem length_le_totalPages_mul {α : Type} {limit : Nat} (hl : 1 ≤ limit)
    (l : List α) :
    l.length ≤ (max ((l.length + limit - 1) / limit) 1) * limit := by
  have h0 : 0 < limit := hl
  calc l.length ≤ limit * (l.length ⌈/⌉ limit) := le_smul_ceilDiv h0
    _ = (l.length ⌈/⌉ limit) * limit := Nat.mul_comm _ _
    _ = ((l.length + limit - 1) / limit) * limit := by
        rw [Nat.ceilDiv_eq_add_pred_div]
    _ ≤ (max ((l.length + limit - 1) / limit) 1) * limit :=
        Nat.mul_le_mul_right _ (le_max_left _ _)

theorem owner_of_mem_pipeline {st : AppState} {sq : SearchQuery} {sp : SortSpec}
    {uid : String} (ho : sq.owner = some uid) {d : ListedVideo}
    (hd : d ∈ pipelineDocs st sq sp) : d.video.owner = uid := by
  rcases List.mem_map.1 hd with ⟨v, hv, rfl⟩
  have hv' : v ∈ st.store.filter (fun v => evalSearch sq v) :=
    (List.perm_insertionSort _ _).subset hv
  have hs := (List.mem_filter.1 hv').2
  simp only [evalSearch, ho, Bool.and_eq_true, beq_iff_eq] at hs
  exact hs.2

theorem cacheLookup_delete_self (st : AppState) (k : String) :
    cacheLookup (cacheDelete st k) k = none := by
  have h : List.find? (fun e => e.1 == k) (List.filter (fun e => e.1 != k) st.cache)
      = none := by
    apply List.find?_eq_none.2
    intro e he
    have := (List.mem_filter.1 he).2
    simpa [bne_iff_ne] using this
  simp [cacheLookup, cacheDelete, h]

/-! ## Claim theorems -/

/-- **C4.** Cache key construction is pure and order-insensitive: for any
kind, parameter mappings holding the same name/value pairs (in any order)
build the same key, and an explicit `page=1` keys identically to an
implicit one because absent/default parameters are omitted. -/
theorem cacheKey_deterministic_and_default_omitting :
    (∀ (k : String) (p₁ p₂ : List (String × String)), p₁.Perm p₂ →
        generateCacheKey k p₁ = generateCacheKey k p₂)
  ∧ (∀ (k : String) (ps : List (String × String)),
        generateCacheKey k (("page", "1") :: ps) = generateCacheKey k ps) := by
  constructor
  · intro k p₁ p₂ h
    unfold generateCacheKey
    congr 2
    apply List.eq_of_perm_of_sorted (r := fun a b : String => strLe a b = true)
    · exact (List.perm_insertionSort _ _).trans
        (((h.filter _).map _).trans (List.perm_insertionSort _ _).symm)
    · exact List.sorted_insertionSort _ _
    · exact List.sorted_insertionSort _ _
  · intro k ps
    simp [generateCacheKey, List.filter_cons, includeParam_page_one]

/-- **C4 witness**: two concrete permuted parameter mappings build the
same key, and `page=1` explicit equals `page=1` implicit. -/
theorem cacheKey_deterministic_witness :
    generateCacheKey "all-videos" [("q", "cats"), ("limit", "20")]
      = generateCacheKey "all-videos" [("limit", "20"), ("q", "cats")]
  ∧ generateCacheKey "all-videos" [("page", "1"), ("q", "cats")]
      = generateCacheKey "all-videos" [("q", "cats")] :=
  ⟨cacheKey_deterministic_and_default_omitting.1 _ _ _ (by decide),
   cacheKey_deterministic_and_default_omitting.2 "all-videos" [("q", "cats")]⟩

/-- **C5.** The listing filter admits exactly the records whose
publication flag is true and, when a free-text query is present, whose
title or description case-insensitively contains the query or whose tag
set intersects the query's lower-cased whitespace-split tokens; a
mixed-case query such as "CATS" matches regardless of stored casing. -/
theorem listing_filter_admits :
    (∀ v : Video, evalSearch (buildSearchQuery none) v = v.isPublished)
  ∧ (∀ (qs : String) (v : Video), qs ≠ "" →
      (evalSearch (buildSearchQuery (some qs)) v = true ↔
        v.isPublished = true ∧
          (icontains v.title qs = true ∨ icontains v.description qs = true ∨
            ∃ t ∈ v.tags, t ∈ (splitOnSpace qs).map lowerStr)))
  ∧ evalSearch (buildSearchQuery (some "CATS")) vid1 = true
  ∧ evalSearch (buildSearchQuery (some "CATS"))
      { vid1 with title := "quiet day", description := "nothing" } = true := by
  refine ⟨?_, ?_, by decide, by decide⟩
  · intro v
    cases hv : v.isPublished <;> simp [evalSearch, buildSearchQuery, hv]
  · intro qs v hq
    simp [evalSearch, buildSearchQuery, hq, evalOrClause, Bool.and_eq_true,
      Bool.or_eq_true, beq_iff_eq, List.any_eq_true, List.elem_iff, or_assoc]

/-- **C5 witness**: the filter characterization instantiated at the
mixed-case query `"CATS"` and the record `vid1`. -/
theorem listing_filter_admits_witness :
    evalSearch (buildSearchQuery (some "CATS")) vid1 = true ↔
      vid1.isPublished = true ∧
        (icontains vid1.title "CATS" = true ∨ icontains vid1.description "CATS" = true ∨
          ∃ t ∈ vid1.tags, t ∈ (splitOnSpace "CATS").map lowerStr) :=
  listing_filter_admits.2.1 "CATS" vid1 (by decide)

/-- **C7.** For a fixed data set, `hasNextPage` holds iff
`currentPage × limit < totalVideos`; pagination skips `(page−1)×limit`
records and takes `limit`; the total count is pre-pagination; and the
concatenation of all pages reproduces the full list with no duplicates or
gaps. -/
theorem pagination_invariant {α : Type} (l : List α) (page limit : Nat)
    (hp : 1 ≤ page) (hl : 1 ≤ limit) :
    ((aggregatePaginate l page limit).hasNextPage = true ↔
        (aggregatePaginate l page limit).page * limit
          < (aggregatePaginate l page limit).totalDocs)
  ∧ (aggregatePaginate l page limit).docs = (l.drop ((page - 1) * limit)).take limit
  ∧ (aggregatePaginate l page limit).totalDocs = l.length
  ∧ ((List.range (aggregatePaginate l page limit).totalPages).map
        (fun i => (aggregatePaginate l (i + 1) limit).docs)).flatten = l := by
  refine ⟨?_, rfl, rfl, ?_⟩
  · simp only [aggregatePaginate, decide_eq_true_eq]
    exact hasNext_lt_iff hp hl
  · simp only [aggregatePaginate, Nat.add_sub_cancel]
    rw [flatten_chunks]
    exact List.take_of_length_le (length_le_totalPages_mul hl l)

/-- **C6.** A listing request whose owner filter is present but not a
well-formed record identifier fails with the invalid-filter error before
any cache lookup or record-store query (the event trace is empty); with a
well-formed identifier, every returned record's owner reference equals
it. -/
theorem listing_owner_filter_validation :
    (∀ (st : AppState) (query : List (String × String)) (uid : String),
        qget query "userId" = some uid → uid ≠ "" → isValidObjectId uid = false →
        (runGetAllVideos st query).res = .error ⟨400, "Invalid User Id"⟩
          ∧ (runGetAllVideos st query).tr = [])
  ∧ (∀ (st : AppState) (query : List (String × String)) (uid : String),
        qget query "userId" = some uid → uid ≠ "" → isValidObjectId uid = true →
        cacheLookup st (generateCacheKey "all-videos" query) = none →
        ∃ d : ListingData,
          (runGetAllVideos st query).res = .ok ⟨200, .listing d, "Videos found"⟩
            ∧ ∀ x ∈ d.videos, x.video.owner = uid) := by
  constructor
  · intro st query uid h1 h2 h3
    simp [runGetAllVideos, h1, h2, h3]
  · intro st query uid h1 h2 h3 hm
    simp only [runGetAllVideos, h1, Option.getD_some, h3, h2, ne_eq,
      not_false_eq_true, true_and, Bool.true_eq_false, and_false, if_false,
      if_true, hm]
    refine ⟨_, rfl, ?_⟩
    intro x hx
    have hx1 : x ∈ pipelineDocs st
        { buildSearchQuery (qget query "q") with owner := some uid }
        (buildSortSpec ((qget query "sortBy").getD "createdAt")
          ((qget query "sortType").getD "desc")) :=
      (List.drop_sublist _ _).subset ((List.take_sublist _ _).subset hx)
    exact owner_of_mem_pipeline rfl hx1

/-- **C6 witness**: a malformed owner filter is rejected with the empty
trace, and a well-formed one yields a listing whose records all carry that
owner. -/
theorem listing_owner_filter_validation_witness :
    ((runGetAllVideos st0 [("userId", "zzz")]).res = .error ⟨400, "Invalid User Id"⟩
      ∧ (runGetAllVideos st0 [("userId", "zzz")]).tr = [])
  ∧ ∃ d : ListingData,
      (runGetAllVideos st0 [("userId", ownerA)]).res = .ok ⟨200, .listing d, "Videos found"⟩
        ∧ ∀ x ∈ d.videos, x.video.owner = ownerA :=
  ⟨listing_owner_filter_validation.1 st0 [("userId", "zzz")] "zzz"
      (by decide) (by decide) (by decide),
   listing_owner_filter_validation.2 st0 [("userId", ownerA)] ownerA
      (by decide) (by decide) (by decide) (by decide)⟩

/-- **C8 counterexample.** Deleting a record whose identifier matches
nothing fails with status 500 ("Failed to delete video"), not with the
404 not-found error the claim names (compare `getVideoById`'s 404). -/
theorem delete_missing_video_wrong_error :
    (runDeleteVideo st0 "eeeeeeeeeeeeeeeeeeeeeeee").res
        = .error ⟨500, "Failed to delete video"⟩
  ∧ (500 : Nat) ≠ 404 := by decide

/-- **C8 (amended).** When no record exists for the identifier: the
item-read fails with the 404 not-found error, while update, delete and
publish-status change fail with status-500 errors; in every case the
operation aborts with the state unchanged and no cache invalidation is
performed. -/
theorem missing_entity_aborts_without_invalidation :
    ∀ (st : AppState) (id : String) (isPub : Bool) (title desc path : Option String),
      findById st id = none →
      (optTrimEmpty title && optTrimEmpty desc && optTrimEmpty path) = false →
      hasPublicId (uploadOnCloudinary path) = true →
      ((runGetVideoById st id).res = .error ⟨404, "Video not found"⟩
        ∧ (runGetVideoById st id).st = st
        ∧ (runGetVideoById st id).tr.all (fun e => !isInvalEvent e) = true)
    ∧ ((runDeleteVideo st id).res = .error ⟨500, "Failed to delete video"⟩
        ∧ (runDeleteVideo st id).st = st
        ∧ (runDeleteVideo st id).tr.all (fun e => !isInvalEvent e) = true)
    ∧ ((runUpdateVideoPublishStatus st id isPub).res
          = .error ⟨500, "Failed to update video publish status"⟩
        ∧ (runUpdateVideoPublishStatus st id isPub).st = st
        ∧ (runUpdateVideoPublishStatus st id isPub).tr.all (fun e => !isInvalEvent e) = true)
    ∧ ((runUpdateVideoById st id title desc path).res
          = .error ⟨500, "Failed to update video"⟩
        ∧ (runUpdateVideoById st id title desc path).st = st
        ∧ (runUpdateVideoById st id title desc path).tr.all (fun e => !isInvalEvent e) = true) := by
  intro st id isPub title desc path h hv hu
  refine ⟨?_, ?_, ?_, ?_⟩
  · simp [runGetVideoById, h, isInvalEvent]
  · simp [runDeleteVideo, h, isInvalEvent]
  · simp [runUpdateVideoPublishStatus, h, isInvalEvent]
  · rcases hup : uploadOnCloudinary path with _ | t
    · rw [hup] at hu; simp [hasPublicId] at hu
    · rw [hup] at hu
      simp [runUpdateVideoById, hv, hup, hu, h, isInvalEvent]

/-- **C8 witness**: the amended behaviour at a concrete state and a fresh
identifier. -/
theorem missing_entity_aborts_witness :
    ((runGetVideoById st0 "eeeeeeeeeeeeeeeeeeeeeeee").res
        = .error ⟨404, "Video not found"⟩
      ∧ (runGetVideoById st0 "eeeeeeeeeeeeeeeeeeeeeeee").st = st0
      ∧ (runGetVideoById st0 "eeeeeeeeeeeeeeeeeeeeeeee").tr.all
          (fun e => !isInvalEvent e) = true)
  ∧ ((runDeleteVideo st0 "eeeeeeeeeeeeeeeeeeeeeeee").res
        = .error ⟨500, "Failed to delete video"⟩
      ∧ (runDeleteVideo st0 "eeeeeeeeeeeeeeeeeeeeeeee").st = st0
      ∧ (runDeleteVideo st0 "eeeeeeeeeeeeeeeeeeeeeeee").tr.all
          (fun e => !isInvalEvent e) = true)
  ∧ ((runUpdateVideoPublishStatus st0 "eeeeeeeeeeeeeeeeeeeeeeee" true).res
        = .error ⟨500, "Failed to update video publish status"⟩
      ∧ (runUpdateVideoPublishStatus st0 "eeeeeeeeeeeeeeeeeeeeeeee" true).st = st0
      ∧ (runUpdateVideoPublishStatus st0 "eeeeeeeeeeeeeeeeeeeeeeee" true).tr.all
          (fun e => !isInvalEvent e) = true)
  ∧ ((runUpdateVideoById st0 "eeeeeeeeeeeeeeeeeeeeeeee"
          (some "T") (some "D") (some "new.jpg")).res
        = .error ⟨500, "Failed to update video"⟩
      ∧ (runUpdateVideoById st0 "eeeeeeeeeeeeeeeeeeeeeeee"
          (some "T") (some "D") (some "new.jpg")).st = st0
      ∧ (runUpdateVideoById st0 "eeeeeeeeeeeeeeeeeeeeeeee"
          (some "T") (some "D") (some "new.jpg")).tr.all
          (fun e => !isInvalEvent e) = true) :=
  missing_entity_aborts_without_invalidation st0 "eeeeeeeeeeeeeeeeeeeeeeee" true
    (some "T") (some "D") (some "new.jpg") (by decide) (by decide) (by decide)

/-- **C9.** The related-videos operation returns exactly the records
other than the subject whose tag set intersects the subject's tag set,
with owners resolved to projected stubs and no publication-flag
condition; concretely, the unpublished `vid3` appears in `vid1`'s
related-videos response even though the listing filter excludes it. -/
theorem related_videos_characterization :
    (∀ (st : AppState) (videoId : String) (subject : Video),
        isValidObjectId videoId = true → findById st videoId = some subject →
        (runGetRelatedVideos st videoId).res
          = .ok ⟨200,
              .videoList ((st.store.filter
                  (fun v => decide (v.id ≠ videoId ∧ ∃ t ∈ v.tags, t ∈ subject.tags))).map
                (fun v => (v, lookupOwner st.users v.owner))),
              "Related videos found"⟩)
  ∧ ((runGetRelatedVideos st0 vid1.id).res
        = .ok ⟨200,
            .videoList [(vid3, some ⟨ownerA, "sam", "Sam", "sam@example.com", "av"⟩)],
            "Related videos found"⟩
      ∧ vid3.isPublished = false
      ∧ evalSearch (buildSearchQuery none) vid3 = false) := by
  constructor
  · intro st videoId subject hval hfind
    have hfilter : ∀ v ∈ st.store,
        ((v.id != videoId) && v.tags.any (fun t => subject.tags.contains t))
          = decide (v.id ≠ videoId ∧ ∃ t ∈ v.tags, t ∈ subject.tags) := by
      intro v _
      rw [Bool.eq_iff_iff]
      simp [bne_iff_ne, Bool.and_eq_true, List.any_eq_true, List.elem_iff]
    simp only [runGetRelatedVideos, hval, Bool.true_eq_false, if_false, hfind,
      cacheLookup_delete_self]
    simp only [cacheDelete]
    rw [List.filter_congr hfilter]
  · exact ⟨by decide, by decide, by decide⟩

/-- **C9 witness**: the characterization instantiated at `st0` and the
subject `vid1`. -/
theorem related_videos_characterization_witness :
    (runGetRelatedVideos st0 vid1.id).res
      = .ok ⟨200,
          .videoList ((st0.store.filter
              (fun v => decide (v.id ≠ vid1.id ∧ ∃ t ∈ v.tags, t ∈ vid1.tags))).map
            (fun v => (v, lookupOwner st0.users v.owner))),
          "Related videos found"⟩ :=
  related_videos_characterization.1 st0 vid1.id vid1 (by decide) (by decide)

/-- **C10 counterexample.** With title, description and thumbnail path
all whitespace (present but not the empty string), the update request is
still rejected as missing required fields — so "all empty strings" is not
a necessary condition for the rejection as the claim states it. -/
theorem update_missing_fields_whitespace_counterexample :
    (runUpdateVideoById st0 vid1.id (some " ") (some " ") (some " ")).res
        = .error ⟨400, "Please provide All required fields"⟩
  ∧ (some " " : Option String) ≠ some "" := by decide

/-- **C10 (amended).** An update-by-id request with no attached thumbnail
file fails with the 500 upload error before touching the record store
(empty event trace, state unchanged), so a title-and-description-only
update is impossible; and the request is rejected as missing required
fields exactly when title, description and the thumbnail path are all
present and trim to the empty string. -/
theorem update_requires_thumbnail_file :
    ∀ (st : AppState) (id : String) (title desc : Option String),
      ((runUpdateVideoById st id title desc none).res
          = .error ⟨500, "Failed to update thumbnail"⟩
        ∧ (runUpdateVideoById st id title desc none).st = st
        ∧ (runUpdateVideoById st id title desc none).tr = [])
    ∧ (∀ path : Option String,
        ((runUpdateVideoById st id title desc path).res
            = .error ⟨400, "Please provide All required fields"⟩) ↔
          (optTrimEmpty title && optTrimEmpty desc && optTrimEmpty path) = true) := by
  intro st id title desc
  constructor
  · simp [runUpdateVideoById, optTrimEmpty, uploadOnCloudinary, hasPublicId]
  · intro path
    by_cases hval : (optTrimEmpty title && optTrimEmpty desc && optTrimEmpty path) = true
    · simp [runUpdateVideoById, hval]
    · have hv' : (optTrimEmpty title && optTrimEmpty desc && optTrimEmpty path) = false :=
        Bool.eq_false_iff.2 hval
      rcases hup : uploadOnCloudinary path with _ | t
      · simp [runUpdateVideoById, hv', hup, hasPublicId]
      · by_cases hpid : t.publicId = ""
        · simp [runUpdateVideoById, hv', hup, hasPublicId, hpid]
        · rcases hfind : findById st id with _ | v
          · simp [runUpdateVideoById, hv', hup, hasPublicId, hpid, hfind]
          · simp [runUpdateVideoById, hv', hup, hasPublicId, hpid, hfind]

/-- **C10 witness**: the amended behaviour at concrete inputs — a
title-and-description-only update fails with the upload error and an
untouched state, and the missing-fields rejection fires exactly on
all-blank inputs. -/
theorem update_requires_thumbnail_file_witness :
    ((runUpdateVideoById st0 vid1.id (some "T") (some "D") none).res
        = .error ⟨500, "Failed to update thumbnail"⟩
      ∧ (runUpdateVideoById st0 vid1.id (some "T") (some "D") none).st = st0
      ∧ (runUpdateVideoById st0 vid1.id (some "T") (some "D") none).tr = [])
  ∧ (((runUpdateVideoById st0 vid1.id (some "") (some "") (some "")).res
        = .error ⟨400, "Please provide All required fields"⟩) ↔
      (optTrimEmpty (some "") && optTrimEmpty (some "") && optTrimEmpty (some "")) = true) :=
  ⟨(update_requires_thumbnail_file st0 vid1.id (some "T") (some "D")).1,
   (update_requires_thumbnail_file st0 vid1.id (some "") (some "")).2 (some "")⟩

/-- **C7 witness**: the pagination invariant at a concrete five-element
data set, page 2, limit 2. -/
theorem pagination_invariant_witness :
    ((aggregatePaginate [10, 11, 12, 13, 14] 2 2).hasNextPage = true ↔
        (aggregatePaginate [10, 11, 12, 13, 14] 2 2).page * 2
          < (aggregatePaginate [10, 11, 12, 13, 14] 2 2).totalDocs)
  ∧ (aggregatePaginate [10, 11, 12, 13, 14] 2 2).docs
      = (([10, 11, 12, 13, 14] : List Nat).drop ((2 - 1) * 2)).take 2
  ∧ (aggregatePaginate [10, 11, 12, 13, 14] 2 2).totalDocs
      = ([10, 11, 12, 13, 14] : List Nat).length
  ∧ ((List.range (aggregatePaginate [10, 11, 12, 13, 14] 2 2).totalPages).map
        (fun i => (aggregatePaginate [10, 11, 12, 13, 14] (i + 1) 2).docs)).flatten
      = [10, 11, 12, 13, 14] :=
  pagination_invariant [10, 11, 12, 13, 14] 2 2 (by decide) (by decide)

/-- **C1 (code bug).** The listing fetch does serve its second identical
call from cache with zero record-store queries, but the single-item read
does not: with an entry present under its key, `getVideoById` still
queries the record store (its `checkCache` result is discarded) and
returns the freshly fetched entity rather than the stored one. -/
theorem getVideoById_ignores_cache_hit :
    ((runGetAllVideos (runGetAllVideos st0 []).st []).res = (runGetAllVideos st0 []).res
      ∧ Event.dbQuery ∉ (runGetAllVideos (runGetAllVideos st0 []).st []).tr)
  ∧ (cacheLookup stVideoCached (entityKey "video" vid1.id) = some staleVideoResp
      ∧ Event.dbQuery ∈ (runGetVideoById stVideoCached vid1.id).tr
      ∧ (runGetVideoById stVideoCached vid1.id).res ≠ .ok staleVideoResp) := by
  decide

/-- **C3 (code bug).** On a miss, `getRelatedVideos` returns its freshly
computed result without storing it (the `setCache` call is commented out),
so the cache stays absent after the read — and an entry that was present
under the key is even deleted by the read and not restored. -/
theorem related_videos_cache_never_populated :
    ((runGetRelatedVideos st0 vid1.id).res.isOk = true
      ∧ cacheLookup (runGetRelatedVideos st0 vid1.id).st
          (entityKey "related-videos" vid1.id) = none)
  ∧ (cacheLookup stRelatedCached (entityKey "related-videos" vid1.id) = some preRelatedResp
      ∧ (runGetRelatedVideos stRelatedCached vid1.id).res.isOk = true
      ∧ cacheLookup (runGetRelatedVideos stRelatedCached vid1.id).st
          (entityKey "related-videos" vid1.id) = none) := by
  decide

/-- **C2.** Every successful mutation performs its record-store write
before any cache invalidation event of its trace, and invalidates the
`all-videos` tag group (plus the single-entity key for the id-targeted
mutations) before returning. -/
theorem mutations_invalidate_after_persist :
    ∀ (st : AppState) (id newId oid : String) (title desc vPath tPath : Option String)
      (tags : List String) (isPub : Bool) (now : Nat),
      ((runUpdateVideoById st id title desc tPath).res.isOk = true →
        writeThenInval (runUpdateVideoById st id title desc tPath).tr = true
        ∧ Event.cacheInvalidateGroup "all-videos"
            ∈ (runUpdateVideoById st id title desc tPath).tr
        ∧ Event.cacheInvalidate (entityKey "video" id)
            ∈ (runUpdateVideoById st id title desc tPath).tr)
    ∧ ((runDeleteVideo st id).res.isOk = true →
        writeThenInval (runDeleteVideo st id).tr = true
        ∧ Event.cacheInvalidateGroup "all-videos" ∈ (runDeleteVideo st id).tr
        ∧ Event.cacheInvalidate (entityKey "video" id) ∈ (runDeleteVideo st id).tr)
    ∧ ((runUpdateVideoPublishStatus st id isPub).res.isOk = true →
        writeThenInval (runUpdateVideoPublishStatus st id isPub).tr = true
        ∧ Event.cacheInvalidateGroup "all-videos"
            ∈ (runUpdateVideoPublishStatus st id isPub).tr
        ∧ Event.cacheInvalidate (entityKey "video" id)
            ∈ (runUpdateVideoPublishStatus st id isPub).tr)
    ∧ ((runPublishVideo st title desc tags vPath tPath oid newId now).res.isOk = true →
        writeThenInval (runPublishVideo st title desc tags vPath tPath oid newId now).tr = true
        ∧ Event.cacheInvalidateGroup "all-videos"
            ∈ (runPublishVideo st title desc tags vPath tPath oid newId now).tr)
    ∧ ((runUpdateAllVideo st title desc tags).res.isOk = true →
        writeThenInval (runUpdateAllVideo st title desc tags).tr = true
        ∧ Event.cacheInvalidateGroup "all-videos" ∈ (runUpdateAllVideo st title desc tags).tr) := by
  intro st id newId oid title desc vPath tPath tags isPub now
  refine ⟨?_, ?_, ?_, ?_, ?_⟩
  · intro h
    cases hv : (optTrimEmpty title && optTrimEmpty desc && optTrimEmpty tPath) with
    | true => simp [runUpdateVideoById, hv, Except.isOk, Except.toBool] at h
    | false =>
      rcases hup : uploadOnCloudinary tPath with _ | t
      · simp [runUpdateVideoById, hv, hup, hasPublicId, Except.isOk, Except.toBool] at h
      · by_cases hpid : t.publicId = ""
        · simp [runUpdateVideoById, hv, hup, hasPublicId, hpid, Except.isOk,
            Except.toBool] at h
        · rcases hfind : findById st id with _ | v
          · simp [runUpdateVideoById, hv, hup, hasPublicId, hpid, hfind, Except.isOk,
              Except.toBool] at h
          · simp [runUpdateVideoById, hv, hup, hasPublicId, hpid, hfind,
              writeThenInval, invalAfterWriteAux, isInvalEvent, isWriteEvent]
  · intro h
    rcases hfind : findById st id with _ | v
    · simp [runDeleteVideo, hfind, Except.isOk, Except.toBool] at h
    · simp [runDeleteVideo, hfind, writeThenInval, invalAfterWriteAux, isInvalEvent,
        isWriteEvent]
  · intro h
    rcases hfind : findById st id with _ | v
    · simp [runUpdateVideoPublishStatus, hfind, Except.isOk, Except.toBool] at h
    · simp [runUpdateVideoPublishStatus, hfind, writeThenInval, invalAfterWriteAux,
        isInvalEvent, isWriteEvent]
  · intro h
    cases hv1 : (((vPath.getD "") == "") || ((tPath.getD "") == "")) with
    | true => simp [runPublishVideo, hv1, Except.isOk, Except.toBool] at h
    | false =>
      cases hv2 : ((optTrimEmpty title || optTrimEmpty desc) || tags.isEmpty) with
      | true => simp [runPublishVideo, hv1, hv2, Except.isOk, Except.toBool] at h
      | false =>
        rcases hu1 : uploadOnCloudinary vPath with _ | vf
        · simp [runPublishVideo, hv1, hv2, hu1, Except.isOk, Except.toBool] at h
        · rcases hu2 : uploadOnCloudinary tPath with _ | th
          · by_cases hq1 : vf.publicId = ""
            · simp [runPublishVideo, hv1, hv2, hu1, hu2, hq1, Except.isOk,
                Except.toBool] at h
            · simp [runPublishVideo, hv1, hv2, hu1, hu2, hq1, Except.isOk,
                Except.toBool] at h
          · by_cases hq1 : vf.publicId = ""
            · simp [runPublishVideo, hv1, hv2, hu1, hu2, hq1, Except.isOk,
                Except.toBool] at h
            · by_cases hq2 : th.publicId = ""
              · simp [runPublishVideo, hv1, hv2, hu1, hu2, hq1, hq2, Except.isOk,
                  Except.toBool] at h
              · simp [runPublishVideo, hv1, hv2, hu1, hu2, hq1, hq2, writeThenInval,
                  invalAfterWriteAux, isInvalEvent, isWriteEvent]
  · intro h
    cases hv : ((optTrimEmpty title && optTrimEmpty desc) || tags.isEmpty) with
    | true => simp [runUpdateAllVideo, hv, Except.isOk, Except.toBool] at h
    | false =>
      cases hz : (st.store.length == 0) with
      | true => simp [runUpdateAllVideo, hv, hz, Except.isOk, Except.toBool] at h
      | false =>
        simp [runUpdateAllVideo, hv, hz, writeThenInval, invalAfterWriteAux,
          isInvalEvent, isWriteEvent]

/-- **C2 witness**: the persistence-before-invalidation property at
concrete successful runs of all five mutations. -/
theorem mutations_invalidate_after_persist_witness :
    (writeThenInval (runUpdateVideoById st0 vid1.id (some "T") (some "D") (some "t.jpg")).tr = true
      ∧ Event.cacheInvalidateGroup "all-videos"
          ∈ (runUpdateVideoById st0 vid1.id (some "T") (some "D") (some "t.jpg")).tr
      ∧ Event.cacheInvalidate (entityKey "video" vid1.id)
          ∈ (runUpdateVideoById st0 vid1.id (some "T") (some "D") (some "t.jpg")).tr)
  ∧ (writeThenInval (runDeleteVideo st0 vid1.id).tr = true
      ∧ Event.cacheInvalidateGroup "all-videos" ∈ (runDeleteVideo st0 vid1.id).tr
      ∧ Event.cacheInvalidate (entityKey "video" vid1.id) ∈ (runDeleteVideo st0 vid1.id).tr)
  ∧ (writeThenInval (runUpdateVideoPublishStatus st0 vid1.id true).tr = true
      ∧ Event.cacheInvalidateGroup "all-videos"
          ∈ (runUpdateVideoPublishStatus st0 vid1.id true).tr
      ∧ Event.cacheInvalidate (entityKey "video" vid1.id)
          ∈ (runUpdateVideoPublishStatus st0 vid1.id true).tr)
  ∧ (writeThenInval (runPublishVideo st0 (some "T") (some "D") ["x"]
        (some "v.mp4") (some "t.jpg") ownerA "ffffffffffffffffffffffff" 9).tr = true
      ∧ Event.cacheInvalidateGroup "all-videos"
          ∈ (runPublishVideo st0 (some "T") (some "D") ["x"]
              (some "v.mp4") (some "t.jpg") ownerA "ffffffffffffffffffffffff" 9).tr)
  ∧ (writeThenInval (runUpdateAllVideo st0 (some "T") (some "D") ["x"]).tr = true
      ∧ Event.cacheInvalidateGroup "all-videos"
          ∈ (runUpdateAllVideo st0 (some "T") (some "D") ["x"]).tr) :=
  ⟨(mutations_invalidate_after_persist st0 vid1.id "ffffffffffffffffffffffff" ownerA
      (some "T") (some "D") (some "v.mp4") (some "t.jpg") ["x"] true 9).1 (by decide),
   (mutations_invalidate_after_persist st0 vid1.id "ffffffffffffffffffffffff" ownerA
      (some "T") (some "D") (some "v.mp4") (some "t.jpg") ["x"] true 9).2.1 (by decide),
   (mutations_invalidate_after_persist st0 vid1.id "ffffffffffffffffffffffff" ownerA
      (some "T") (some "D") (some "v.mp4") (some "t.jpg") ["x"] true 9).2.2.1 (by decide),
   (mutations_invalidate_after_persist st0 vid1.id "ffffffffffffffffffffffff" ownerA
      (some "T") (some "D") (some "v.mp4") (some "t.jpg") ["x"] true 9).2.2.2.1 (by decide),
   (mutations_invalidate_after_persist st0 vid1.id "ffffffffffffffffffffffff" ownerA
      (some "T") (some "D") (some "v.mp4") (some "t.jpg") ["x"] true 9).2.2.2.2 (by decide)⟩
